import Mathlib

/-!
Verification development for the rabbit-e-commerce order pipeline.

The development shallowly embeds the two Python services:

* `src/order_service/data/order_repository.py`  (in-memory repository)
* `src/order_service/services/order_service.py` (materializer / query logic)
* `src/order_service/services/order_consumer.py` (per-message handler, consume loop)
* `src/cart_service/services/rabbitmq.py`       (envelope building, routing key,
  publish failure propagation)
* `src/cart_service/api/orders.py`              (create_order endpoint)

Python `decimal.Decimal` values are embedded as exact mantissa/scale pairs
(`Dec`), which is the representation `Decimal` itself uses; all arithmetic in
the pipeline is exact, and `quantize(Decimal("0.01"))` rounds with the default
context rounding mode ROUND_HALF_EVEN.  The model covers finite decimals; the
special values NaN/Infinity and the 28-digit context precision limit of the
default context are outside the model (no claim below depends on them, and the
restriction is repeated at each place it matters).

JSON values decoded by `json.loads` are embedded as the inductive `JValue`;
JSON numbers are decimal literals, hence carried as `Dec`.
-/

/-- Exact decimal number: the value is `m / 10 ^ s`.  This mirrors the
mantissa/exponent representation of Python `decimal.Decimal` (restricted to
non-positive exponents; parsed exponents are normalized, which preserves both
the value and every scale-2 quantization result used by the pipeline). -/
structure Dec where
  m : ℤ
  s : ℕ
deriving DecidableEq, Repr

/-- Rational value of a `Dec`. -/
def decToRat (d : Dec) : ℚ := (d.m : ℚ) / (10 : ℚ) ^ d.s

/-- Exact product of two decimals, as computed by Python `Decimal.__mul__`
on the magnitudes occurring in this pipeline (within context precision). -/
def mulDec (a b : Dec) : Dec := ⟨a.m * b.m, a.s + b.s⟩

/-- Exact sum of two decimals (scales aligned), as computed by Python
`Decimal.__add__` on the magnitudes occurring in this pipeline. -/
def addDec (a b : Dec) : Dec :=
  ⟨a.m * 10 ^ (max a.s b.s - a.s) + b.m * 10 ^ (max a.s b.s - b.s), max a.s b.s⟩

/-- Embeds `Decimal(k)` for a Python int `k`. -/
def intDec (k : ℤ) : Dec := ⟨k, 0⟩

/-- Embeds `x.quantize(Decimal("0.01"))` under the default decimal context:
round the value of `d` to 2 fractional digits with ROUND_HALF_EVEN (the
default rounding of `decimal.getcontext()`).  For a scale above 2 the mantissa
is divided by the corresponding power of ten; `/` and `%` on `ℤ` round toward
negative infinity here, so `f` is the floor and `r` the non-negative remainder,
and the three-way comparison of `2 * r` against the divisor implements
round-half-even exactly. -/
def quantize2 (d : Dec) : Dec :=
  if d.s ≤ 2 then ⟨d.m * 10 ^ (2 - d.s), 2⟩
  else
    let p : ℤ := (10 : ℤ) ^ (d.s - 2)
    let f := d.m / p
    let r := d.m % p
    ⟨if 2 * r < p then f else if p < 2 * r then f + 1 else if f % 2 = 0 then f else f + 1, 2⟩

/-- JSON values as produced by `json.loads`: null, booleans, numbers (decimal
literals, hence `Dec`), strings, arrays and objects.  Objects are association
lists; `json.loads` produces dicts with unique keys, and lookups below take
the first binding. -/
inductive JValue where
  | null
  | bool (b : Bool)
  | num (d : Dec)
  | str (s : String)
  | arr (elems : List JValue)
  | obj (fields : List (String × JValue))
deriving Repr

mutual
/-- Structural equality of JSON values (Python `==` restricted to the JSON
fragment; numbers compare by their `Dec` representation, which on repository
keys produced by this pipeline coincides with numeric equality). -/
def jEq : JValue → JValue → Bool
  | .null, .null => true
  | .bool a, .bool b => a == b
  | .num a, .num b => a == b
  | .str a, .str b => a == b
  | .arr a, .arr b => jEqList a b
  | .obj a, .obj b => jEqObj a b
  | _, _ => false
/-- Pointwise equality of JSON arrays. -/
def jEqList : List JValue → List JValue → Bool
  | [], [] => true
  | x :: xs, y :: ys => jEq x y && jEqList xs ys
  | _, _ => false
/-- Pointwise equality of JSON objects. -/
def jEqObj : List (String × JValue) → List (String × JValue) → Bool
  | [], [] => true
  | (k1, v1) :: xs, (k2, v2) :: ys => k1 == k2 && jEq v1 v2 && jEqObj xs ys
  | _, _ => false
end

/-- Embeds Python `d.get(key)` on a decoded JSON object: `none` models the
Python result `None` for a missing key. -/
def dictGet (fields : List (String × JValue)) (key : String) : Option JValue :=
  (fields.find? (fun p => p.1 == key)).map (fun p => p.2)

/-- Embeds the Python comparison `status == "new"` for a decoded value
(`status != "new"` guards the discard paths): only the string new compares
equal to the literal. -/
def isNewStatus : Option JValue → Bool
  | some (.str s) => s == "new"
  | _ => false

/-- Whitespace stripped by Python `int(str)` and `Decimal(str)`. -/
def isWs (c : Char) : Bool := c == ' ' || c == '\t' || c == '\n' || c == '\r'

/-- Numeric value of an ASCII digit. -/
def digitVal (c : Char) : Option ℕ :=
  if '0' ≤ c ∧ c ≤ '9' then some (c.toNat - '0'.toNat) else none

/-- Accumulating base-10 evaluation of a digit run; fails on a non-digit. -/
def digitsValAux (acc : ℕ) : List Char → Option ℕ
  | [] => some acc
  | c :: cs =>
    match digitVal c with
    | some d => digitsValAux (10 * acc + d) cs
    | none => none

/-- Value of a non-empty all-digit run. -/
def digitsVal : List Char → Option ℕ
  | [] => none
  | cs => digitsValAux 0 cs

/-- Value of a possibly empty all-digit run (empty evaluates to 0). -/
def digitsValOpt (cs : List Char) : Option ℕ := digitsValAux 0 cs

/-- Splits a character list at the first character satisfying `p`; the second
component is `none` when no such character occurs. -/
def breakAtP (p : Char → Bool) : List Char → List Char × Option (List Char)
  | [] => ([], none)
  | c :: cs =>
    if p c then ([], some cs)
    else
      let r := breakAtP p cs
      (c :: r.1, r.2)

/-- Strips leading and trailing whitespace. -/
def trimWs (cs : List Char) : List Char :=
  ((cs.dropWhile isWs).reverse.dropWhile isWs).reverse

/-- Embeds Python `int(s)` for a string `s`: optional surrounding whitespace,
optional sign, then a non-empty digit run.  Digit-group underscores and
non-ASCII digits accepted by CPython are outside the model; no claim uses
them. -/
def parseIntStr (s : String) : Option ℤ :=
  match trimWs s.data with
  | '+' :: rest => (digitsVal rest).map (fun n => (n : ℤ))
  | '-' :: rest => (digitsVal rest).map (fun n => -(n : ℤ))
  | rest => (digitsVal rest).map (fun n => (n : ℤ))

/-- Parses the unsigned mantissa of a decimal numeral: a digit run with an
optional dot, at least one digit overall. -/
def parseMantissa (cs : List Char) : Option Dec :=
  let br := breakAtP (fun c => c == '.') cs
  match br.2 with
  | none => (digitsVal br.1).map (fun n => ⟨(n : ℤ), 0⟩)
  | some fp =>
    if br.1.isEmpty && fp.isEmpty then none
    else
      match digitsValOpt br.1, digitsValOpt fp with
      | some a, some b => some ⟨(a : ℤ) * 10 ^ fp.length + (b : ℤ), fp.length⟩
      | _, _ => none

/-- Parses a signed mantissa. -/
def parseSignedMantissa : List Char → Option Dec
  | '+' :: rest => parseMantissa rest
  | '-' :: rest => (parseMantissa rest).map (fun d => ⟨-d.m, d.s⟩)
  | rest => parseMantissa rest

/-- Parses the signed digit run after an exponent marker. -/
def parseExpChars : List Char → Option ℤ
  | '+' :: rest => (digitsVal rest).map (fun n => (n : ℤ))
  | '-' :: rest => (digitsVal rest).map (fun n => -(n : ℤ))
  | rest => (digitsVal rest).map (fun n => (n : ℤ))

/-- Multiplies a decimal by `10 ^ k`, normalizing positive exponents into the
mantissa so that the scale stays a natural number; the value is preserved
exactly. -/
def applyExp (d : Dec) (k : ℤ) : Dec :=
  if 0 ≤ k then
    let kn := k.toNat
    if kn ≤ d.s then ⟨d.m, d.s - kn⟩ else ⟨d.m * 10 ^ (kn - d.s), 0⟩
  else ⟨d.m, d.s + (-k).toNat⟩

/-- Embeds `Decimal(s)` for a string `s`, restricted to finite numerals:
optional surrounding whitespace, optional sign, digits with an optional dot,
optional exponent.  The special spellings NaN/Infinity that `Decimal` also
accepts are outside the model (treated as non-numerals), as are digit-group
underscores; no claim below depends on them. -/
def parseDecStr (s : String) : Option Dec :=
  let body := trimWs s.data
  let br := breakAtP (fun c => c == 'e' || c == 'E') body
  match br.2 with
  | none => parseSignedMantissa br.1
  | some expPart =>
    match parseSignedMantissa br.1, parseExpChars expPart with
    | some d, some k => some (applyExp d k)
    | _, _ => none

/-- Python-level runtime errors that can escape the embedded functions.
UnicodeDecodeError is kept distinct from ValueError: in CPython it is a
subclass of ValueError and a sibling of json.JSONDecodeError, so an
`except json.JSONDecodeError` clause does not catch it. -/
inductive PyError where
  | attrError
  | typeError
  | valueError
  | unicodeDecodeError
deriving DecidableEq, Repr

/-- Truncation of a decimal toward zero, as in Python `int(Decimal)` and
`int(float)`. -/
def decTrunc (d : Dec) : ℤ :=
  if 0 ≤ d.m then d.m / 10 ^ d.s else -((-d.m) / 10 ^ d.s)

/-- Embeds Python `int(x)` for a decoded JSON value `x`:  `int(None)` and
`int` of a list or dict raise TypeError, `int` of a bool gives 0 or 1, `int`
of a number truncates toward zero, and `int` of a string parses a base-10
integer literal, raising ValueError when the string is not one. -/
def intCoerce : JValue → Except PyError ℤ
  | .null => .error .typeError
  | .bool b => .ok (if b then 1 else 0)
  | .num d => .ok (decTrunc d)
  | .str s =>
    match parseIntStr s with
    | some n => .ok n
    | none => .error .valueError
  | .arr _ => .error .typeError
  | .obj _ => .error .typeError

namespace OrderService

/-- Embeds `OrderService._decimalize` from
`src/order_service/services/order_service.py` lines 87-97: `None` becomes 0;
a value that is already a `Decimal` is returned unchanged (decoded JSON never
contains `Decimal` objects, so that branch is value-level identity here); any
other value is converted through `Decimal(str(raw_value))`, and a conversion
failure is logged and degraded to 0.  `str` of a JSON number is the numeral
that `Decimal` parses back exactly; `str` of a bool, list or dict is never a
numeral, so those degrade to 0. -/
def decimalize : JValue → Dec
  | .null => ⟨0, 0⟩
  | .bool _ => ⟨0, 0⟩
  | .num d => d
  | .str s => (parseDecStr s).getD ⟨0, 0⟩
  | .arr _ => ⟨0, 0⟩
  | .obj _ => ⟨0, 0⟩

end OrderService

/-- Materialized order item, the dict appended by
`OrderService._normalize_items` (order_service.py lines 77-84):  itemId is
copied as-is (None when missing), quantity is the `int` coercion, price the
`Decimal` coercion, and lineTotal the quantized product. -/
structure OrderItemRec where
  itemId : JValue
  quantity : ℤ
  price : Dec
  lineTotal : Dec
deriving Repr

/-- Provenance metadata attached by `OrderService.handle_order_event`
(order_service.py lines 51-54). -/
structure Metadata where
  eventType : JValue
  receivedAt : JValue
deriving Repr

/-- Materialized order record, the dict assembled by
`OrderService.handle_order_event` (order_service.py lines 42-55).  As a Python
dict it always carries these nine keys, so it is never falsy. -/
structure OrderRecord where
  orderId : JValue
  customerId : JValue
  orderDate : JValue
  items : List OrderItemRec
  totalAmount : Dec
  currency : JValue
  status : JValue
  shippingCost : Dec
  metadata : Metadata
deriving Repr

/-- State of `OrderRepository._orders`: a mapping from the saved key
(`record["orderId"]`, an arbitrary decoded JSON value) to the record.
Represented as an association list read through `jEq`. -/
abbrev Repo := List (JValue × OrderRecord)

namespace OrderRepository

/-- Embeds `OrderRepository.get` (order_repository.py lines 33-36):
`self._orders.get(order_id)` under the lock, a pure read. -/
def get (repo : Repo) (key : JValue) : Option OrderRecord :=
  (repo.find? (fun p => jEq p.1 key)).map (fun p => p.2)

/-- Embeds `OrderRepository.save` (order_repository.py lines 16-31): under
the lock, if the key is already present the call logs and returns without
touching the store (idempotent insert); otherwise the record is inserted. -/
def save (repo : Repo) (key : JValue) (record : OrderRecord) : Repo :=
  if (get repo key).isSome then repo else (key, record) :: repo

/-- Embeds `OrderRepository.clear` (order_repository.py lines 38-41). -/
def clear (_ : Repo) : Repo := []

end OrderRepository

namespace OrderService

/-- The class constant `OrderService.SHIPPING_RATE = Decimal("0.02")`
(order_service.py line 17). -/
def SHIPPING_RATE : Dec := ⟨2, 2⟩

/-- Embeds the loop body of `OrderService._normalize_items` for one item
(order_service.py lines 74-84).  A non-dict item makes `item.get` raise
AttributeError.  `price` goes through `_decimalize` (total), `quantity`
through bare `int(item.get("quantity", 0))` which can raise, and
`lineTotal = (price * Decimal(quantity)).quantize(Decimal("0.01"))`. -/
def normalizeItem : JValue → Except PyError OrderItemRec
  | .obj f =>
    let price := decimalize ((dictGet f "price").getD .null)
    match intCoerce ((dictGet f "quantity").getD (.num ⟨0, 0⟩)) with
    | .error e => .error e
    | .ok qty =>
      .ok { itemId := (dictGet f "itemId").getD .null
            quantity := qty
            price := price
            lineTotal := quantize2 (mulDec price (intDec qty)) }
  | _ => .error .attrError

/-- Embeds `OrderService._normalize_items` (order_service.py lines 71-85):
items are processed in order and the first raising item aborts the whole
call. -/
def normalize_items : List JValue → Except PyError (List OrderItemRec)
  | [] => .ok []
  | item :: rest =>
    match normalizeItem item with
    | .error e => .error e
    | .ok r =>
      match normalize_items rest with
      | .error e => .error e
      | .ok rs => .ok (r :: rs)

/-- Embeds `OrderService.handle_order_event` (order_service.py lines 22-62).
The event payload is the dict decoded from the message body.
`event_payload.get("data", {})` falls back to an empty dict only when the key
is missing; a present non-dict value (including null) makes the following
`.get("status")` raise AttributeError.  When the status is not the string
literal new the call logs and returns with the repository untouched.
Otherwise items are normalized (`order_data.get("items", [])`; iterating a
non-list raises), totalAmount is coerced, the shipping cost is
`(total_amount * SHIPPING_RATE).quantize(Decimal("0.01"))`, the record is
assembled and saved under `record["orderId"]`. -/
def handle_order_event (repo : Repo) (payload : JValue) : Except PyError Repo :=
  match payload with
  | .obj pf =>
    match (dictGet pf "data").getD (.obj []) with
    | .obj df =>
      if isNewStatus (dictGet df "status") then
        match (dictGet df "items").getD (.arr []) with
        | .arr itemsRaw =>
          match normalize_items itemsRaw with
          | .error e => .error e
          | .ok items =>
            let total := decimalize ((dictGet df "totalAmount").getD .null)
            let record : OrderRecord :=
              { orderId := (dictGet df "orderId").getD .null
                customerId := (dictGet df "customerId").getD .null
                orderDate := (dictGet df "orderDate").getD .null
                items := items
                totalAmount := total
                currency := (dictGet df "currency").getD .null
                status := (dictGet df "status").getD .null
                shippingCost := quantize2 (mulDec total SHIPPING_RATE)
                metadata := { eventType := (dictGet pf "event_type").getD .null
                              receivedAt := (dictGet pf "timestamp").getD .null } }
            .ok (OrderRepository.save repo record.orderId record)
        | _ => .error .typeError
      else .ok repo
    | _ => .error .attrError
  | _ => .error .attrError

/-- Outcome of `OrderService.get_order` (order_service.py lines 64-69):
either the stored record or the raised OrderNotFoundError. -/
inductive GetOrderOutcome where
  | found (record : OrderRecord)
  | orderNotFoundError
deriving Repr

/-- Embeds `OrderService.get_order` (order_service.py lines 64-69): reads
through `OrderRepository.get` and raises OrderNotFoundError on a falsy
result.  A stored record is a nine-key dict, hence truthy, so the falsy
results are exactly the misses; the function performs no write.  -/
def get_order (repo : Repo) (order_id : String) : GetOrderOutcome :=
  match OrderRepository.get repo (.str order_id) with
  | some record => .found record
  | none => .orderNotFoundError

end OrderService

namespace OrderConsumer

/-- Raw byte body of one delivered message, classified by the outcome of the
two standard-library decoding steps at order_consumer.py line 84,
`json.loads(message.body.decode("utf-8"))`:  `notUtf8` models a byte string
(carried as its bytes) on which `.decode("utf-8")` raises UnicodeDecodeError;
`invalid` a body that decodes to UTF-8 text on which `json.loads` raises
`json.JSONDecodeError`; `valid` a body decoding to the given JSON value.
Both decoders are the Python standard library, external to this repository,
so they enter the model by their outcome. -/
inductive Body where
  | notUtf8 (bytes : List ℕ)
  | invalid (raw : String)
  | valid (payload : JValue)

/-- Embeds `OrderConsumer._handle_message` (order_consumer.py lines 80-98)
inside `message.process(ignore_processed=True)`:  the except clause names
only `json.JSONDecodeError`, so a JSON-decode failure is logged and the
handler returns normally (the context manager acknowledges the message), but
a UnicodeDecodeError raised by `message.body.decode("utf-8")` on a non-UTF-8
body is not caught and leaves the handler; a payload whose `data.status` is
not the string new is discarded with the repository untouched; otherwise the
payload is delegated to `OrderService.handle_order_event`.  A normal return
models acknowledge-and-continue; an error models an exception leaving the
handler. -/
def handle_message (repo : Repo) (body : Body) : Except PyError Repo :=
  match body with
  | .notUtf8 _ => .error .unicodeDecodeError
  | .invalid _ => .ok repo
  | .valid payload =>
    match payload with
    | .obj pf =>
      match (dictGet pf "data").getD (.obj []) with
      | .obj df =>
        if isNewStatus (dictGet df "status") then
          OrderService.handle_order_event repo payload
        else .ok repo
      | _ => .error .attrError
    | _ => .error .attrError

/-- Embeds the message-processing effect of `OrderConsumer._consume_loop`
(order_consumer.py lines 67-78): messages are handled in delivery order and
an exception escaping the handler terminates the loop. -/
def consume_loop (repo : Repo) : List Body → Except PyError Repo
  | [] => .ok repo
  | body :: rest =>
    match handle_message repo body with
    | .ok repo2 => consume_loop repo2 rest
    | .error e => .error e

end OrderConsumer

namespace RabbitMQService

/-- Embeds the envelope construction of `RabbitMQService.publish_order_event`
(rabbitmq.py lines 63-68): the published payload is the dict
with keys event_type, timestamp and data, where the timestamp field is
`order_data.get("orderDate")` — the producer-assigned order date taken from
inside the payload, not a publication-time clock reading. -/
def event_payload (order_data : List (String × JValue)) (event_type : String) : JValue :=
  .obj [("event_type", .str event_type),
        ("timestamp", (dictGet order_data "orderDate").getD .null),
        ("data", .obj order_data)]

/-- Timestamp field of a published envelope. -/
def envelopeTimestamp : JValue → JValue
  | .obj f => (dictGet f "timestamp").getD .null
  | _ => .null

/-- Embeds the routing-key construction of
`RabbitMQService.publish_order_event` (rabbitmq.py lines 84-86):
the f-string new.{order_id} applied to `order_data.get("orderId")`.  Order
payloads published by `create_order` always carry orderId as the string from
the request (`OrderResponse.orderId` is declared `str`), so the model takes
that string directly. -/
def routing_key (order_id : String) : String := "new." ++ order_id

/-- Embeds the failure semantics of `RabbitMQService.publish_order_event`
(rabbitmq.py lines 58-94).  The broker interaction itself is external
network I/O, passed in by its outcome; the surrounding try/except logs a
failure and re-raises it, so the outcome reaches the caller unchanged. -/
def publish_order_event (brokerOutcome : Except String Unit) : Except String Unit :=
  match brokerOutcome with
  | .ok _ => .ok ()
  | .error e => .error e

end RabbitMQService

/-- Order item generated by `generate_random_items` in
`src/cart_service/api/orders.py`: the randomness is external, so items enter
`create_order` as data. -/
structure GenItem where
  itemId : String
  quantity : ℤ
  price : Dec
deriving DecidableEq, Repr

/-- Response model `OrderResponse` of `src/cart_service/api/orders.py`. -/
structure OrderResponse where
  orderId : String
  customerId : String
  orderDate : String
  items : List GenItem
  totalAmount : Dec
  currency : String
  status : String
deriving DecidableEq, Repr

/-- Embeds `total_amount = sum(item.price * item.quantity for item in items)`
(cart api orders.py line 109): Python `sum` starts from the int 0 and adds the
exact Decimal products left to right. -/
def totalOf (items : List GenItem) : Dec :=
  (items.map (fun i => mulDec i.price (intDec i.quantity))).foldl addDec ⟨0, 0⟩

/-- Outcome of the `create_order` endpoint: the 409 conflict response, or the
201 response together with the updated `existing_order_ids` state. -/
inductive CreateOrderOutcome where
  | conflict409
  | created (existing : List String) (response : OrderResponse)
deriving DecidableEq, Repr

/-- Embeds `create_order` (cart api orders.py lines 89-141).  The random
generation of customer id, order date, items and currency is external input;
`statuses = ["new"]`, so the status is always the literal new.  If the
requested orderId is already known the endpoint raises a 409.  Otherwise the
response is built, the publish is attempted, and — on success or on failure —
the orderId is added to `existing_order_ids` and the response is returned:
a publish failure is logged and explicitly does not abort creation. -/
def create_order (existing : List String) (orderId customerId orderDate : String)
    (items : List GenItem) (currency : String)
    (brokerOutcome : Except String Unit) : CreateOrderOutcome :=
  if existing.contains orderId then .conflict409
  else
    let response : OrderResponse :=
      { orderId := orderId, customerId := customerId, orderDate := orderDate
        items := items, totalAmount := totalOf items
        currency := currency, status := "new" }
    match RabbitMQService.publish_order_event brokerOutcome with
    | .ok _ => .created (orderId :: existing) response
    | .error _ => .created (orderId :: existing) response

/-- Splits a character list at the dots, keeping empty words. -/
def splitDotsAux : List Char → List Char → List String
  | [], acc => [String.mk acc.reverse]
  | c :: cs, acc =>
    if c = '.' then String.mk acc.reverse :: splitDotsAux cs []
    else splitDotsAux cs (c :: acc)

/-- Modelled from the spec: the glossary defines a routing key as a
dot-delimited string; this splits it into its words.  The broker that applies
the patterns is RabbitMQ itself, outside this repository. -/
def splitDots (s : String) : List String := splitDotsAux s.data []

/-- Modelled from the spec: topic-exchange matching of a binding pattern
against a routing key, word by word — a literal word matches itself and the
star wildcard matches exactly one word (the glossary example: new.ABC123
matches pattern new.*).  The hash wildcard is not used by any binding of this
system and is left out. -/
def matchWords : List String → List String → Bool
  | [], [] => true
  | p :: ps, k :: ks => (p == "*" || p == k) && matchWords ps ks
  | _, _ => false

/-- Modelled from the spec: a queue bound with `pattern` receives a message
published with routing key `key` exactly when the word lists match. -/
def topicMatch (pattern key : String) : Bool :=
  matchWords (splitDots pattern) (splitDots key)

/-- Example of a status-new event payload carrying totalAmount 250.00. -/
def payload250 : JValue :=
  .obj [("event_type", .str "order_created"),
        ("timestamp", .str "2024-01-01T00:00:00"),
        ("data", .obj [("orderId", .str "O1"),
                       ("status", .str "new"),
                       ("totalAmount", .num ⟨25000, 2⟩)])]

/-- Record materialized from `payload250`. -/
def record250 : OrderRecord :=
  { orderId := .str "O1", customerId := .null, orderDate := .null,
    items := [], totalAmount := ⟨25000, 2⟩, currency := .null,
    status := .str "new", shippingCost := ⟨500, 2⟩,
    metadata := { eventType := .str "order_created",
                  receivedAt := .str "2024-01-01T00:00:00" } }

/-- Example of a status-new event payload carrying totalAmount 33.33. -/
def payload3333 : JValue :=
  .obj [("event_type", .str "order_created"),
        ("timestamp", .str "2024-01-01T00:00:00"),
        ("data", .obj [("orderId", .str "O2"),
                       ("status", .str "new"),
                       ("totalAmount", .num ⟨3333, 2⟩)])]

/-- Record materialized from `payload3333`. -/
def record3333 : OrderRecord :=
  { orderId := .str "O2", customerId := .null, orderDate := .null,
    items := [], totalAmount := ⟨3333, 2⟩, currency := .null,
    status := .str "new", shippingCost := ⟨67, 2⟩,
    metadata := { eventType := .str "order_created",
                  receivedAt := .str "2024-01-01T00:00:00" } }

mutual
/-- Mutual reflexivity of the JSON equality test. -/
theorem jEq_refl : ∀ v : JValue, jEq v v = true
  | .null => rfl
  | .bool b => by simp [jEq]
  | .num d => by simp [jEq]
  | .str s => by simp [jEq]
  | .arr xs => by simp [jEq, jEqList_refl xs]
  | .obj fs => by simp [jEq, jEqObj_refl fs]

/-- Mutual reflexivity of the JSON array equality test. -/
theorem jEqList_refl : ∀ xs : List JValue, jEqList xs xs = true
  | [] => rfl
  | x :: xs => by simp [jEqList, jEq_refl x, jEqList_refl xs]

/-- Mutual reflexivity of the JSON object equality test. -/
theorem jEqObj_refl : ∀ fs : List (String × JValue), jEqObj fs fs = true
  | [] => rfl
  | (k, v) :: fs => by simp [jEqObj, jEq_refl v, jEqObj_refl fs]
end

/-- Reading back any key after a save hits either the old store or the record
just saved. -/
theorem OrderRepository.get_save_elim (repo : Repo) (key : JValue)
    (record : OrderRecord) (k : JValue) (r : OrderRecord)
    (h : OrderRepository.get (OrderRepository.save repo key record) k = some r) :
    OrderRepository.get repo k = some r ∨ r = record := by
  by_cases hs : (OrderRepository.get repo key).isSome
  · left
    simpa [OrderRepository.save, hs] using h
  · rw [OrderRepository.save, if_neg hs] at h
    rw [OrderRepository.get] at h
    by_cases hk : jEq key k
    · right
      rw [List.find?_cons_of_pos _ (by simpa using hk)] at h
      simpa using h.symm
    · left
      rw [List.find?_cons_of_neg _ (by simpa using hk)] at h
      exact h

/-- C1: Repository save follows the idempotent-insert policy: saving a first
record for a fresh orderId and then a second record for the same orderId
leaves the first record stored, and the second call is a no-op that does not
mutate existing state. -/
theorem save_idempotent_insert (repo : Repo) (key : JValue)
    (r1 r2 : OrderRecord) (h : OrderRepository.get repo key = none) :
    OrderRepository.get
        (OrderRepository.save (OrderRepository.save repo key r1) key r2) key = some r1
    ∧ OrderRepository.save (OrderRepository.save repo key r1) key r2
        = OrderRepository.save repo key r1 := by
  have h1 : OrderRepository.save repo key r1 = (key, r1) :: repo := by
    simp [OrderRepository.save, h]
  have h2 : OrderRepository.get ((key, r1) :: repo) key = some r1 := by
    rw [OrderRepository.get, List.find?_cons_of_pos _ (by simpa using jEq_refl key)]
    rfl
  have h3 : OrderRepository.save ((key, r1) :: repo) key r2 = (key, r1) :: repo := by
    simp [OrderRepository.save, h2]
  refine ⟨?_, ?_⟩
  · rw [h1, h3, h2]
  · rw [h1, h3]

/-- Witness for the idempotent-insert theorem: two different concrete records
saved under the same fresh key in the empty repository. -/
theorem save_idempotent_insert_witness :
    OrderRepository.get
        (OrderRepository.save (OrderRepository.save [] (.str "K") record250) (.str "K") record3333)
        (.str "K") = some record250
    ∧ OrderRepository.save (OrderRepository.save [] (.str "K") record250) (.str "K") record3333
        = OrderRepository.save [] (.str "K") record250 :=
  save_idempotent_insert [] (.str "K") record250 record3333 rfl

/-- C2: an event whose data.status is not the literal new is discarded by both
the per-message handler of the consumer and the message handler of the order
service: the repository is returned unchanged and no error is raised. -/
theorem status_filter_skips (repo : Repo) (pf df : List (String × JValue))
    (hdata : (dictGet pf "data").getD (.obj []) = .obj df)
    (hstatus : isNewStatus (dictGet df "status") = false) :
    OrderService.handle_order_event repo (.obj pf) = .ok repo
    ∧ OrderConsumer.handle_message repo (.valid (.obj pf)) = .ok repo := by
  constructor
  · simp [OrderService.handle_order_event, hdata, hstatus]
  · simp [OrderConsumer.handle_message, hdata, hstatus]

/-- Witness for the status filter at a concrete shipped-status payload. -/
theorem status_filter_skips_witness :
    OrderService.handle_order_event []
        (.obj [("data", .obj [("orderId", .str "O9"), ("status", .str "shipped")])]) = .ok []
    ∧ OrderConsumer.handle_message []
        (.valid (.obj [("data", .obj [("orderId", .str "O9"), ("status", .str "shipped")])]))
        = .ok [] :=
  status_filter_skips [] [("data", .obj [("orderId", .str "O9"), ("status", .str "shipped")])]
    [("orderId", .str "O9"), ("status", .str "shipped")] rfl rfl

/-- C8: get_order returns the stored record exactly when a record for the
queried orderId is present, and raises OrderNotFoundError exactly when none
is; the function only reads the repository (it takes the store and returns an
outcome, with no written store). -/
theorem get_order_contract (repo : Repo) (order_id : String) :
    (∀ r, OrderRepository.get repo (.str order_id) = some r →
       OrderService.get_order repo order_id = .found r)
    ∧ (OrderRepository.get repo (.str order_id) = none →
       OrderService.get_order repo order_id = .orderNotFoundError) := by
  constructor
  · intro r h
    simp [OrderService.get_order, h]
  · intro h
    simp [OrderService.get_order, h]

/-- Witness for the get_order contract: a hit on a one-record repository and
a miss on the empty repository. -/
theorem get_order_contract_witness :
    OrderService.get_order [(.str "O1", record250)] "O1" = .found record250
    ∧ OrderService.get_order [] "O1" = .orderNotFoundError :=
  ⟨(get_order_contract [(.str "O1", record250)] "O1").1 record250 rfl,
   (get_order_contract [] "O1").2 rfl⟩

/-- C3: every record a handled event adds to the repository carries
shippingCost computed as totalAmount times SHIPPING_RATE quantized to 2
fractional digits; concretely, consuming a status-new event with
totalAmount 250.00 stores shippingCost 5.00 and one with totalAmount 33.33
stores shippingCost 0.67. -/
theorem shipping_cost_formula :
    (∀ repo payload repo2, OrderService.handle_order_event repo payload = .ok repo2 →
      ∀ k r, OrderRepository.get repo2 k = some r →
        OrderRepository.get repo k = some r
        ∨ r.shippingCost = quantize2 (mulDec r.totalAmount OrderService.SHIPPING_RATE))
    ∧ OrderConsumer.consume_loop [] [.valid payload250] = .ok [(.str "O1", record250)]
    ∧ record250.shippingCost = ⟨500, 2⟩
    ∧ decToRat record250.shippingCost = 5
    ∧ OrderConsumer.consume_loop [] [.valid payload3333] = .ok [(.str "O2", record3333)]
    ∧ record3333.shippingCost = ⟨67, 2⟩
    ∧ decToRat record3333.shippingCost = 67 / 100 := by
  refine ⟨?_, rfl, rfl, by norm_num [decToRat, record250], rfl, rfl,
          by norm_num [decToRat, record3333]⟩
  intro repo payload repo2 h k r hget
  cases payload with
  | null => exact absurd h (by simp [OrderService.handle_order_event])
  | bool b => exact absurd h (by simp [OrderService.handle_order_event])
  | num d => exact absurd h (by simp [OrderService.handle_order_event])
  | str s => exact absurd h (by simp [OrderService.handle_order_event])
  | arr xs => exact absurd h (by simp [OrderService.handle_order_event])
  | obj pf =>
    simp only [OrderService.handle_order_event] at h
    split at h
    · split at h
      · split at h
        · split at h
          · exact absurd h (by simp)
          · rw [Except.ok.injEq] at h
            subst h
            rcases OrderRepository.get_save_elim _ _ _ _ _ hget with hold | hnew
            · exact Or.inl hold
            · subst hnew
              exact Or.inr rfl
        · exact absurd h (by simp)
      · rw [Except.ok.injEq] at h
        subst h
        exact Or.inl hget
    · exact absurd h (by simp)

/-- Witness for the shipping-cost formula: the record materialized from the
250.00 payload satisfies the quantized two-percent equation. -/
theorem shipping_cost_formula_witness :
    OrderRepository.get [] (.str "O1") = some record250
    ∨ record250.shippingCost = quantize2 (mulDec record250.totalAmount OrderService.SHIPPING_RATE) :=
  shipping_cost_formula.1 [] payload250 [(.str "O1", record250)] rfl (.str "O1") record250 rfl

/-- Items whose quantity field coerces through `int` are all normalized
without an exception. -/
theorem normalize_items_ok (itemsRaw : List JValue)
    (hq : ∀ item ∈ itemsRaw, ∃ f, item = .obj f ∧
          ∃ n, intCoerce ((dictGet f "quantity").getD (.num ⟨0, 0⟩)) = .ok n) :
    ∃ out, OrderService.normalize_items itemsRaw = .ok out := by
  induction itemsRaw with
  | nil => exact ⟨[], rfl⟩
  | cons item rest ih =>
    obtain ⟨f, hf, n, hn⟩ := hq item (List.mem_cons_self item rest)
    obtain ⟨out, hout⟩ := ih (fun i hi => hq i (List.mem_cons_of_mem _ hi))
    subst hf
    refine ⟨{ itemId := (dictGet f "itemId").getD .null, quantity := n,
              price := OrderService.decimalize ((dictGet f "price").getD .null),
              lineTotal := quantize2 (mulDec
                (OrderService.decimalize ((dictGet f "price").getD .null)) (intDec n)) }
            :: out, ?_⟩
    simp [OrderService.normalize_items, OrderService.normalizeItem, hn, hout]

/-- C4 counterexample: a status-new event holding one item whose quantity is
the non-numeric string N/A makes handle_order_event raise ValueError — the
bare `int(...)` coercion of quantity is not defensive, so the record is
neither assembled nor saved. -/
theorem defensive_coercion_counterexample :
    OrderService.handle_order_event []
        (.obj [("data", .obj [("status", .str "new"),
                              ("items", .arr [.obj [("quantity", .str "N/A")]])])])
      = .error .valueError := rfl

/-- C4 as amended: for a status-new event, item prices and totalAmount that
fail the Decimal coercion degrade to zero with a warning and the record is
still assembled and saved, and no exception is raised provided every item is
an object whose quantity coerces through `int`; a price alone never aborts —
the N/A price materializes as price 0.00 with lineTotal 0.00. -/
theorem defensive_coercion_amended (repo : Repo) (pf df : List (String × JValue))
    (itemsRaw : List JValue)
    (hdata : (dictGet pf "data").getD (.obj []) = .obj df)
    (hstatus : isNewStatus (dictGet df "status") = true)
    (hitems : (dictGet df "items").getD (.arr []) = .arr itemsRaw)
    (hq : ∀ item ∈ itemsRaw, ∃ f, item = .obj f ∧
          ∃ n, intCoerce ((dictGet f "quantity").getD (.num ⟨0, 0⟩)) = .ok n) :
    (∃ repo2, OrderService.handle_order_event repo (.obj pf) = .ok repo2)
    ∧ (∀ s, parseDecStr s = none → OrderService.decimalize (.str s) = ⟨0, 0⟩)
    ∧ OrderService.normalizeItem (.obj [("price", .str "N/A"), ("quantity", .num ⟨1, 0⟩)])
        = .ok { itemId := .null, quantity := 1, price := ⟨0, 0⟩, lineTotal := ⟨0, 2⟩ } := by
  refine ⟨?_, ?_, rfl⟩
  · cases hcase : OrderService.handle_order_event repo (.obj pf) with
    | ok repo2 => exact ⟨repo2, rfl⟩
    | error e =>
      obtain ⟨out, hout⟩ := normalize_items_ok itemsRaw hq
      simp [OrderService.handle_order_event, hdata, hstatus, hitems, hout] at hcase
  · intro s hs
    simp [OrderService.decimalize, hs]

/-- Witness for the amended coercion theorem: a concrete status-new event
whose single item has price N/A and a numeric quantity is handled without an
exception. -/
theorem defensive_coercion_amended_witness :
    (∃ repo2, OrderService.handle_order_event []
        (.obj [("data", .obj [("status", .str "new"), ("orderId", .str "O3"),
               ("items", .arr [.obj [("price", .str "N/A"), ("quantity", .num ⟨2, 0⟩)]])])])
        = .ok repo2)
    ∧ (∀ s, parseDecStr s = none → OrderService.decimalize (.str s) = ⟨0, 0⟩)
    ∧ OrderService.normalizeItem (.obj [("price", .str "N/A"), ("quantity", .num ⟨1, 0⟩)])
        = .ok { itemId := .null, quantity := 1, price := ⟨0, 0⟩, lineTotal := ⟨0, 2⟩ } :=
  defensive_coercion_amended []
    [("data", .obj [("status", .str "new"), ("orderId", .str "O3"),
      ("items", .arr [.obj [("price", .str "N/A"), ("quantity", .num ⟨2, 0⟩)]])])]
    [("status", .str "new"), ("orderId", .str "O3"),
      ("items", .arr [.obj [("price", .str "N/A"), ("quantity", .num ⟨2, 0⟩)]])]
    [.obj [("price", .str "N/A"), ("quantity", .num ⟨2, 0⟩)]]
    rfl rfl rfl
    (by
      intro item hi
      simp only [List.mem_singleton] at hi
      subst hi
      exact ⟨[("price", .str "N/A"), ("quantity", .num ⟨2, 0⟩)], rfl, 2, rfl⟩)

/-- C5 counterexample: two order payloads differing only in the orderDate
field inside data produce envelopes with different timestamp fields, so the
envelope timestamp depends on a field of data (it is the producer-assigned
orderDate, not a publication-time reading). -/
theorem envelope_timestamp_counterexample :
    RabbitMQService.envelopeTimestamp
        (RabbitMQService.event_payload
          [("orderId", .str "A1"), ("orderDate", .str "2024-01-01T00:00:00")] "order_created")
      = .str "2024-01-01T00:00:00"
    ∧ RabbitMQService.envelopeTimestamp
        (RabbitMQService.event_payload
          [("orderId", .str "A1"), ("orderDate", .str "2025-06-06T12:00:00")] "order_created")
      = .str "2025-06-06T12:00:00"
    ∧ RabbitMQService.envelopeTimestamp
        (RabbitMQService.event_payload
          [("orderId", .str "A1"), ("orderDate", .str "2024-01-01T00:00:00")] "order_created")
      ≠ RabbitMQService.envelopeTimestamp
        (RabbitMQService.event_payload
          [("orderId", .str "A1"), ("orderDate", .str "2025-06-06T12:00:00")] "order_created") := by
  refine ⟨rfl, rfl, ?_⟩
  intro h
  injection h with h2
  exact absurd h2 (by decide)

/-- C5 as amended: the timestamp of every published envelope equals the
orderDate field of the order payload (null when that field is missing); it is
not independent of data. -/
theorem envelope_timestamp_amended (order_data : List (String × JValue)) (event_type : String) :
    RabbitMQService.envelopeTimestamp (RabbitMQService.event_payload order_data event_type)
      = (dictGet order_data "orderDate").getD .null := rfl

/-- C6 counterexample: the byte body FF is not valid JSON under any reading,
yet the handler does not return normally — `message.body.decode("utf-8")`
raises UnicodeDecodeError, which the except clause for json.JSONDecodeError
does not catch — and the consume loop dies on it, so the following valid
status-new message, which alone would be materialized, is not. -/
theorem poison_message_counterexample :
    OrderConsumer.handle_message [] (.notUtf8 [255]) = .error .unicodeDecodeError
    ∧ OrderConsumer.consume_loop [] [.notUtf8 [255], .valid payload250]
        = .error .unicodeDecodeError
    ∧ OrderConsumer.consume_loop [] [.valid payload250]
        = .ok [(.str "O1", record250)] :=
  ⟨rfl, rfl, rfl⟩

/-- C6 as amended: a message whose body is UTF-8 text that fails JSON parsing
is handled by a normal return with the repository unchanged (the process
context manager then acknowledges it), the consume loop continues past it
unchanged, and a subsequent valid status-new message is still materialized;
but a body that is not UTF-8-decodable raises UnicodeDecodeError out of the
handler — only json.JSONDecodeError is caught — and terminates the consume
loop. -/
theorem poison_message_resilience (repo : Repo) (raw : String)
    (rest : List OrderConsumer.Body) (bytes : List ℕ) :
    OrderConsumer.handle_message repo (.invalid raw) = .ok repo
    ∧ OrderConsumer.consume_loop repo (.invalid raw :: rest)
        = OrderConsumer.consume_loop repo rest
    ∧ OrderConsumer.consume_loop [] [.invalid "not json", .valid payload250]
        = .ok [(.str "O1", record250)]
    ∧ OrderConsumer.handle_message repo (.notUtf8 bytes) = .error .unicodeDecodeError
    ∧ OrderConsumer.consume_loop repo (.notUtf8 bytes :: rest)
        = .error .unicodeDecodeError :=
  ⟨rfl, rfl, rfl, rfl, rfl⟩

/-- C7: publish_order_event re-raises every broker failure to its caller, and
create_order nevertheless completes on such a failure — the orderId is
recorded as existing and the created order response is returned. -/
theorem publish_failure_best_effort (existing : List String)
    (orderId customerId orderDate currency : String) (items : List GenItem) (e : String)
    (h : existing.contains orderId = false) :
    RabbitMQService.publish_order_event (.error e) = .error e
    ∧ create_order existing orderId customerId orderDate items currency (.error e)
        = .created (orderId :: existing)
            { orderId := orderId, customerId := customerId, orderDate := orderDate,
              items := items, totalAmount := totalOf items,
              currency := currency, status := "new" }
    ∧ (orderId :: existing).contains orderId = true := by
  have hmem : orderId ∉ existing := by simpa using h
  refine ⟨rfl, ?_, ?_⟩
  · simp [create_order, hmem, RabbitMQService.publish_order_event]
  · simp [List.contains_cons]

/-- Witness for the publish-failure theorem at a concrete fresh order. -/
theorem publish_failure_best_effort_witness :
    RabbitMQService.publish_order_event (.error "boom") = .error "boom"
    ∧ create_order [] "ABC123" "CUST_1" "2024-01-01T00:00:00" [] "USD" (.error "boom")
        = .created ["ABC123"]
            { orderId := "ABC123", customerId := "CUST_1",
              orderDate := "2024-01-01T00:00:00",
              items := [], totalAmount := totalOf [], currency := "USD", status := "new" }
    ∧ (["ABC123"] : List String).contains "ABC123" = true :=
  publish_failure_best_effort [] "ABC123" "CUST_1" "2024-01-01T00:00:00" "USD" [] "boom" rfl

/-- Splitting a dot-free character run yields the single accumulated word. -/
theorem splitDotsAux_no_dot (cs : List Char) (acc : List Char) (h : '.' ∉ cs) :
    splitDotsAux cs acc = [String.mk (acc.reverse ++ cs)] := by
  induction cs generalizing acc with
  | nil => simp [splitDotsAux]
  | cons c cs ih =>
    have hc : c ≠ '.' := fun hc => h (hc ▸ List.mem_cons_self c cs)
    rw [splitDotsAux, if_neg hc, ih (c :: acc) (fun hm => h (List.mem_cons_of_mem _ hm))]
    simp

/-- A routing key built by the publisher always splits into the word new
followed by the words of the orderId. -/
theorem splitDots_new_cons (s : String) :
    splitDots ("new." ++ s) = "new" :: splitDotsAux s.data [] := by
  have h : ("new." ++ s).data = 'n' :: 'e' :: 'w' :: '.' :: s.data := by
    rw [String.data_append]; rfl
  rw [splitDots, h]
  rfl

/-- For a dot-free orderId the routing key splits into exactly two words. -/
theorem splitDots_new_no_dot (s : String) (h : '.' ∉ s.data) :
    splitDots ("new." ++ s) = ["new", s] := by
  rw [splitDots_new_cons, splitDotsAux_no_dot s.data [] h]
  obtain ⟨data⟩ := s
  simp

/-- C9 counterexample: the routing key is built as new.orderId even when the
orderId itself contains a dot, and then the binding pattern new.* no longer
matches — the star wildcard matches exactly one word, while new.A.B has three
words — so not every published order event reaches a queue bound to new.*. -/
theorem routing_pattern_counterexample :
    RabbitMQService.routing_key "A.B" = "new.A.B"
    ∧ topicMatch "new.*" (RabbitMQService.routing_key "A.B") = false :=
  ⟨rfl, rfl⟩

/-- C9 as amended: every published order event carries routing key
new.orderId; a queue bound to shipped.* never receives it, and a queue bound
to new.* receives it whenever the orderId contains no dot (the claimed
orderId ABC123 in particular). -/
theorem routing_key_amended (order_id : String) :
    RabbitMQService.routing_key order_id = "new." ++ order_id
    ∧ topicMatch "shipped.*" (RabbitMQService.routing_key order_id) = false
    ∧ ('.' ∉ order_id.data →
        topicMatch "new.*" (RabbitMQService.routing_key order_id) = true) := by
  refine ⟨rfl, ?_, ?_⟩
  · show matchWords (splitDots "shipped.*") (splitDots ("new." ++ order_id)) = false
    rw [splitDots_new_cons]
    rfl
  · intro h
    show matchWords (splitDots "new.*") (splitDots ("new." ++ order_id)) = true
    rw [splitDots_new_no_dot order_id h]
    rfl

/-- Witness for the amended routing theorem at the orderId ABC123. -/
theorem routing_key_amended_witness :
    RabbitMQService.routing_key "ABC123" = "new." ++ "ABC123"
    ∧ topicMatch "shipped.*" (RabbitMQService.routing_key "ABC123") = false
    ∧ topicMatch "new.*" (RabbitMQService.routing_key "ABC123") = true :=
  ⟨(routing_key_amended "ABC123").1, (routing_key_amended "ABC123").2.1,
   (routing_key_amended "ABC123").2.2 (by decide)⟩

/-- C10: the rounding rule fixed by the implementation for monetary rounding
is round-half-even to 2 fractional digits:  every product ending in an exact
half cent rounds to the nearest even cent (totalAmount 31.25 gives
shippingCost 0.62, the tenth-cent values 0.125 and 0.135 round to 0.12 and
0.14), and every normalized line total is the quantized price-quantity
product. -/
theorem rounding_rule_half_even :
    (∀ c : ℤ, quantize2 ⟨100 * c + 50, 4⟩ = ⟨if c % 2 = 0 then c else c + 1, 2⟩)
    ∧ (∀ f r, OrderService.normalizeItem (.obj f) = .ok r →
        r.lineTotal = quantize2 (mulDec r.price (intDec r.quantity)))
    ∧ quantize2 (mulDec ⟨3125, 2⟩ OrderService.SHIPPING_RATE) = ⟨62, 2⟩
    ∧ quantize2 ⟨125, 3⟩ = ⟨12, 2⟩
    ∧ quantize2 ⟨135, 3⟩ = ⟨14, 2⟩ := by
  refine ⟨?_, ?_, by decide, by decide, by decide⟩
  · intro c
    have h1 : (100 * c + 50) / (100 : ℤ) = c := by omega
    have h2 : (100 * c + 50) % (100 : ℤ) = 50 := by omega
    simp only [quantize2]
    norm_num [h1, h2]
  · intro f r h
    simp only [OrderService.normalizeItem] at h
    cases hq : intCoerce ((dictGet f "quantity").getD (.num ⟨0, 0⟩)) with
    | error e =>
      rw [hq] at h
      exact absurd h (by simp)
    | ok n =>
      rw [hq] at h
      rw [Except.ok.injEq] at h
      subst h
      rfl

/-- Witness for the rounding theorem: the line total of a concrete normalized
item (price 19.99, quantity 3) satisfies the quantized-product equation. -/
theorem rounding_rule_half_even_witness :
    OrderService.normalizeItem
        (.obj [("itemId", .str "I1"), ("quantity", .num ⟨3, 0⟩), ("price", .num ⟨1999, 2⟩)])
      = .ok { itemId := .str "I1", quantity := 3, price := ⟨1999, 2⟩, lineTotal := ⟨5997, 2⟩ }
    ∧ ({ itemId := JValue.str "I1", quantity := 3, price := ⟨1999, 2⟩,
         lineTotal := ⟨5997, 2⟩ } : OrderItemRec).lineTotal
        = quantize2 (mulDec (⟨1999, 2⟩ : Dec) (intDec 3)) :=
  ⟨rfl, rounding_rule_half_even.2.1
    [("itemId", .str "I1"), ("quantity", .num ⟨3, 0⟩), ("price", .num ⟨1999, 2⟩)]
    { itemId := .str "I1", quantity := 3, price := ⟨1999, 2⟩, lineTotal := ⟨5997, 2⟩ } rfl⟩
